import Mathlib

/-!
Shallow embedding of the elastic-scan partition planner.

Two source files are embedded, each in its own namespace:
* `ES`      — src/elastic_scan.py        (coordinator-side logical slicing)
* `Scanner` — src/elastic_scan/scanner.py (shard-local direct routing)

Network operations (the document-count query, the cat-shards catalog
request, the actual search call) are external collaborators: their
results are passed in as parameters, and the search call a unit would
issue is modelled as a `SearchCall` record of the arguments forwarded
to the wire client.

Python-specific semantics that matter here and are modelled explicitly:
* `doc_count // scroll_size` raises `ZeroDivisionError` when
  `scroll_size = 0`; `get_npartitions` therefore returns an `Option`.
* `__add_slice` assigns `query['slice']` on the caller's dict in place
  and returns the same object, and `delayed(__scan)(query=_q, ...)`
  stores a reference to that one dict (dask does not copy arguments).
  Planning therefore threads a single query state through the loop; the
  planner returns the final contents of that shared dict, and each
  `WorkUnit` additionally records `querySnapshot`, the dict contents at
  the moment the delayed call was built.  At execution time every unit
  of a plan reads the shared dict, i.e. the final contents.
-/

def AGGREGATION : String := "aggregation"

def HITS : String := "hits"

/-- Slice descriptor written under the query's slice key. -/
structure SliceDesc where
  id : Nat
  max : Nat
deriving Repr, DecidableEq

/-- A query dict: opaque caller content plus the optional slice key
that `__add_slice` writes. -/
structure Query where
  base : String
  slice : Option SliceDesc
deriving Repr, DecidableEq

/-- One delayed `__scan` invocation as appended to `_dataholder`.
`querySnapshot` records the contents of the (shared) query dict at the
moment the delayed call was created; `scrollSize` is the page size
argument given to this unit (the docsOwned of the slice). -/
structure WorkUnit where
  index : String
  client : String
  querySnapshot : Query
  scrollSize : Nat
  timeout : String
  responsetype : String
deriving Repr, DecidableEq

/-- Arguments a unit forwards to the wire client's search endpoint. -/
structure SearchCall where
  index : String
  size : Nat
  scroll : String
  body : Query
deriving Repr, DecidableEq

/-- One row of the cat-shards catalog response.  The catalog returns
decimal strings for shard id and doc count; the Python `int()`
conversion of those strings is modelled by the numeric field values. -/
structure CatShardRow where
  shard : Nat
  docs : Nat
  prirep : String
  ip : String
  index : String
deriving Repr, DecidableEq

/-- Result entry of `__get_shard_info`. -/
structure ShardInfo where
  shardID : Nat
  docCount : Nat
  endpoint : String
  index : String
deriving Repr, DecidableEq

/-- Ceiling division on naturals, used to state the spec's
`ceil(totalDocs/pageSize)` formula. -/
def ceilDiv (a b : Nat) : Nat := (a + b - 1) / b

/-- The slice count the spec claims: `max(1, ceil(totalDocs/pageSize))`.
This follows the spec's words, to be compared with the planner's
`get_npartitions` taken from the source. -/
def specSliceMax (totalDocs pageSize : Nat) : Nat :=
  max 1 (ceilDiv totalDocs pageSize)

namespace ES

/-- From src/elastic_scan.py, `__get_npartitions`:
`(doc_count // scroll_size) + 1`.  Python floor division raises
`ZeroDivisionError` on a zero divisor, modelled as `none`. -/
def get_npartitions (doc_count scroll_size : Nat) : Option Nat :=
  if scroll_size = 0 then none else some (doc_count / scroll_size + 1)

/-- From src/elastic_scan.py, `__add_slice`: writes the slice key of
the query dict (in place in Python) and returns the same dict. -/
def add_slice (query : Query) (sliceid slicemax : Nat) : Query :=
  { query with slice := some ⟨sliceid, slicemax⟩ }

/-- From src/elastic_scan.py, `__elastic_scanner`: the search call it
issues is `search(index=index, size=scroll_size, scroll=timeout,
body=query)`. -/
def elastic_scanner_call (index : String) (query : Query)
    (scroll_size : Nat) (timeout : String) : SearchCall :=
  ⟨index, scroll_size, timeout, query⟩

/-- From src/elastic_scan.py, `__scan`: delegates to
`__elastic_scanner` passing the literal string for one minute as the
timeout, ignoring its own `timeout` argument. -/
def scan_call (index : String) (query : Query) (scroll_size : Nat)
    (timeout : String) : SearchCall :=
  elastic_scanner_call index query scroll_size ("1m")

/-- The hits loop of `scan_index` (src/elastic_scan.py lines 196-228):
iterates `_sliceidx` over `range(n_partitions)`, keeping the running
`_doc_count`.  When `_doc_count >= scroll_size` the unit gets page size
`scroll_size` and the counter is decremented; otherwise the unit gets
page size `_doc_count` (no decrement in this file).  The single shared
query dict is threaded through; the final contents and the unit list
are returned. -/
def scan_loop (index client timeout responsetype : String)
    (scroll_size n_partitions : Nat) :
    Nat → Nat → Nat → Query → Query × List WorkUnit
  | 0, _, _, q => (q, [])
  | fuel+1, doc_count, sliceidx, q =>
    if scroll_size ≤ doc_count then
      let q1 := add_slice q sliceidx n_partitions
      let r := scan_loop index client timeout responsetype scroll_size
        n_partitions fuel (doc_count - scroll_size) (sliceidx+1) q1
      (r.1, ⟨index, client, q1, scroll_size, timeout, responsetype⟩ :: r.2)
    else
      let q1 := add_slice q sliceidx n_partitions
      let r := scan_loop index client timeout responsetype scroll_size
        n_partitions fuel doc_count (sliceidx+1) q1
      (r.1, ⟨index, client, q1, doc_count, timeout, responsetype⟩ :: r.2)

/-- From src/elastic_scan.py, `scan_index`.  `doc_count` is the result
of the external `__get_doc_count` call.  Returns the final contents of
the shared query dict together with `_dataholder`. -/
def scan_index (index client : String) (query : Query)
    (scroll_size : Nat) (timeout responsetype : String)
    (doc_count : Nat) : Option (Query × List WorkUnit) :=
  if responsetype = HITS then
    (get_npartitions doc_count scroll_size).map (fun n =>
      if 1 < n then
        scan_loop index client timeout responsetype scroll_size n
          n doc_count 0 query
      else
        (query, [⟨index, client, query, doc_count, timeout, responsetype⟩]))
  else if responsetype = AGGREGATION then
    some (query, [⟨index, client, query, scroll_size, timeout, responsetype⟩])
  else
    some (query, [])

/-- From src/elastic_scan.py, `__get_shard_info`: keep cat-shards rows
that are primaries with a strictly positive doc count, converting the
shard id and doc count of each surviving row. -/
def get_shard_info (rows : List CatShardRow) : List ShardInfo :=
  (rows.filter (fun s => s.prirep == "p" && decide (0 < s.docs))).map
    (fun s => ⟨s.shard, s.docs, s.ip, s.index⟩)

end ES

namespace Scanner

/-- From src/elastic_scan/scanner.py, `__get_npartitions`: identical
formula to the one in src/elastic_scan.py. -/
def get_npartitions (doc_count scroll_size : Nat) : Option Nat :=
  if scroll_size = 0 then none else some (doc_count / scroll_size + 1)

/-- From src/elastic_scan/scanner.py, `__add_slice`. -/
def add_slice (query : Query) (sliceid slicemax : Nat) : Query :=
  { query with slice := some ⟨sliceid, slicemax⟩ }

/-- From src/elastic_scan/scanner.py, `__elastic_scanner`'s search
call. -/
def elastic_scanner_call (index : String) (query : Query)
    (scroll_size : Nat) (timeout : String) : SearchCall :=
  ⟨index, scroll_size, timeout, query⟩

/-- From src/elastic_scan/scanner.py, `__scan`: forwards the literal
one-minute string as the timeout, ignoring its `timeout` argument. -/
def scan_call (index : String) (query : Query) (scroll_size : Nat)
    (timeout : String) : SearchCall :=
  elastic_scanner_call index query scroll_size ("1m")

/-- From src/elastic_scan/scanner.py, `__get_shard_info`. -/
def get_shard_info (rows : List CatShardRow) : List ShardInfo :=
  (rows.filter (fun s => s.prirep == "p" && decide (0 < s.docs))).map
    (fun s => ⟨s.shard, s.docs, s.ip, s.index⟩)

/-- The per-shard slice loop of `scan_index`
(src/elastic_scan/scanner.py lines 145-177): iterates `_sliceidx` over
`range(n_partitions)` with running `_tmp_size`; a full slice gets page
size `scroll_size`, the undersized slice gets `_tmp_size` and then
zeroes the counter.  Every unit targets the shard's endpoint and every
iteration injects the slice descriptor into the shared query dict. -/
def shard_loop (timeout responsetype : String)
    (scroll_size n_partitions : Nat) (shard_index endpoint : String) :
    Nat → Nat → Nat → Query → Query × List WorkUnit
  | 0, _, _, q => (q, [])
  | fuel+1, tmp_size, sliceidx, q =>
    if scroll_size ≤ tmp_size then
      let q1 := add_slice q sliceidx n_partitions
      let r := shard_loop timeout responsetype scroll_size n_partitions
        shard_index endpoint fuel (tmp_size - scroll_size) (sliceidx+1) q1
      (r.1, ⟨shard_index, ("http://") ++ endpoint ++ (":9200"), q1,
        scroll_size, timeout, responsetype⟩ :: r.2)
    else
      let q1 := add_slice q sliceidx n_partitions
      let r := shard_loop timeout responsetype scroll_size n_partitions
        shard_index endpoint fuel (tmp_size - tmp_size) (sliceidx+1) q1
      (r.1, ⟨shard_index, ("http://") ++ endpoint ++ (":9200"), q1,
        tmp_size, timeout, responsetype⟩ :: r.2)

/-- The outer shard iteration of the hits branch of `scan_index`:
for each shard compute its partition count and run `shard_loop`,
threading the shared query dict across shards. -/
def shards_loop (timeout responsetype : String) (scroll_size : Nat) :
    List ShardInfo → Query → Option (Query × List WorkUnit)
  | [], q => some (q, [])
  | sh :: rest, q =>
    (get_npartitions sh.docCount scroll_size).bind (fun n =>
      let r := shard_loop timeout responsetype scroll_size n
        sh.index sh.endpoint n sh.docCount 0 q
      (shards_loop timeout responsetype scroll_size rest r.1).map
        (fun p => (p.1, r.2 ++ p.2)))

/-- From src/elastic_scan/scanner.py, `scan_index`.  `rows` is the
result of the external cat-shards request consumed by
`__get_shard_info`.  In aggregation mode one unit is built per element
of `list(set(...))` over the shard indices, modelled by `dedup` (the
Python set iteration order is unspecified; only the underlying set of
indices is determined). -/
def scan_index (client_address : String) (query : Query)
    (scroll_size : Nat) (timeout responsetype : String)
    (rows : List CatShardRow) : Option (Query × List WorkUnit) :=
  let shards := get_shard_info rows
  if responsetype = HITS then
    shards_loop timeout responsetype scroll_size shards query
  else if responsetype = AGGREGATION then
    some (query, ((shards.map (fun s => s.index)).dedup).map
      (fun idx => ⟨idx, client_address, query, scroll_size, timeout,
        responsetype⟩))
  else
    some (query, [])

end Scanner

/-! ### Helper lemmas -/

/-- Ceiling division agrees with floor division plus one on
non-multiples of the divisor. -/
theorem ceilDiv_of_not_dvd (t s : Nat) (hs : 0 < s) (hd : ¬ s ∣ t) :
    t / s + 1 = ceilDiv t s := by
  have hqr := Nat.div_add_mod t s
  have hrlt : t % s < s := Nat.mod_lt t hs
  have hr1 : t % s ≠ 0 := fun h => hd (Nat.dvd_of_mod_eq_zero h)
  have key : t + s - 1 = s * (t / s + 1) + (t % s - 1) := by
    have hmul : s * (t / s + 1) = s * (t / s) + s := by ring
    omega
  have hsmall : (t % s - 1) / s = 0 := Nat.div_eq_of_lt (by omega)
  rw [ceilDiv, key, Nat.mul_add_div hs, hsmall]

/-- Ceiling division agrees with floor division on multiples of the
divisor. -/
theorem ceilDiv_of_dvd (t s : Nat) (hs : 0 < s) (hd : s ∣ t) :
    t / s + 1 = ceilDiv t s + 1 := by
  have hqr := Nat.div_add_mod t s
  have hr0 : t % s = 0 := by
    obtain ⟨q, rfl⟩ := hd
    exact Nat.mul_mod_right s q
  have key : t + s - 1 = s * (t / s) + (s - 1) := by omega
  have hsmall : (s - 1) / s = 0 := Nat.div_eq_of_lt (by omega)
  rw [ceilDiv, key, Nat.mul_add_div hs, hsmall]

/-- Sum of the page sizes handed out by the coordinator hits loop: with
the fuel the planner actually uses (floor quotient plus one) the loop
distributes exactly the running document count. -/
theorem es_scan_loop_sum (index client timeout rt : String)
    (s n : Nat) (hs : 0 < s) :
    ∀ (fuel d i : Nat) (q : Query), fuel = d / s + 1 →
      ((ES.scan_loop index client timeout rt s n fuel d i q).2.map
        (fun u => u.scrollSize)).sum = d := by
  intro fuel
  induction fuel with
  | zero => intro d i q h; exact absurd h.symm (Nat.succ_ne_zero _)
  | succ k ih =>
    intro d i q h
    by_cases hd : s ≤ d
    · have hdiv : d / s = (d - s) / s + 1 := by
        conv_lhs => rw [← Nat.sub_add_cancel hd]
        rw [Nat.add_div_right _ hs]
      simp only [ES.scan_loop, if_pos hd, List.map_cons, List.sum_cons]
      rw [ih (d - s) (i+1) (ES.add_slice q i n) (by omega)]
      omega
    · have hd0 : d / s = 0 := Nat.div_eq_of_lt (by omega)
      have hk : k = 0 := by omega
      subst hk
      simp [ES.scan_loop, if_neg hd]

/-- Sum of the page sizes handed out by the shard-local slice loop. -/
theorem scanner_shard_loop_sum (timeout rt shard_index endpoint : String)
    (s n : Nat) (hs : 0 < s) :
    ∀ (fuel d i : Nat) (q : Query), fuel = d / s + 1 →
      ((Scanner.shard_loop timeout rt s n shard_index endpoint
          fuel d i q).2.map (fun u => u.scrollSize)).sum = d := by
  intro fuel
  induction fuel with
  | zero => intro d i q h; exact absurd h.symm (Nat.succ_ne_zero _)
  | succ k ih =>
    intro d i q h
    by_cases hd : s ≤ d
    · have hdiv : d / s = (d - s) / s + 1 := by
        conv_lhs => rw [← Nat.sub_add_cancel hd]
        rw [Nat.add_div_right _ hs]
      simp only [Scanner.shard_loop, if_pos hd, List.map_cons, List.sum_cons]
      rw [ih (d - s) (i+1) (Scanner.add_slice q i n) (by omega)]
      omega
    · have hd0 : d / s = 0 := Nat.div_eq_of_lt (by omega)
      have hk : k = 0 := by omega
      subst hk
      simp [Scanner.shard_loop, if_neg hd]

/-- Summed over all shards, the shard-local planner hands out exactly
the sum of the shards' document counts. -/
theorem scanner_shards_loop_sum (timeout rt : String) (s : Nat)
    (hs : 0 < s) :
    ∀ (shards : List ShardInfo) (q : Query),
      (Scanner.shards_loop timeout rt s shards q).map
        (fun r => (r.2.map (fun u => u.scrollSize)).sum) =
      some ((shards.map (fun sh => sh.docCount)).sum) := by
  intro shards
  induction shards with
  | nil => intro q; simp [Scanner.shards_loop]
  | cons sh rest ih =>
    intro q
    have hs0 : ¬ s = 0 := by omega
    simp only [Scanner.shards_loop, Scanner.get_npartitions, if_neg hs0,
      Option.bind_some, Option.some_bind]
    set r := Scanner.shard_loop timeout rt s (sh.docCount / s + 1)
      sh.index sh.endpoint (sh.docCount / s + 1) sh.docCount 0 q with hr
    cases hrest : Scanner.shards_loop timeout rt s rest r.1 with
    | none =>
      have hsum := ih r.1
      rw [hrest] at hsum
      simp at hsum
    | some p =>
      have hsum := ih r.1
      rw [hrest] at hsum
      simp at hsum
      have hhead : (r.2.map (fun u => u.scrollSize)).sum = sh.docCount :=
        scanner_shard_loop_sum timeout rt sh.index sh.endpoint s
          (sh.docCount / s + 1) hs (sh.docCount / s + 1) sh.docCount 0 q rfl
      simp [hrest, List.map_append, List.sum_append, hsum, hhead]

/-- Every unit built by the coordinator hits loop carries the caller's
timeout value. -/
theorem es_scan_loop_timeout (index client timeout rt : String)
    (s n : Nat) :
    ∀ (fuel d i : Nat) (q : Query) (u : WorkUnit),
      u ∈ (ES.scan_loop index client timeout rt s n fuel d i q).2 →
      u.timeout = timeout := by
  intro fuel
  induction fuel with
  | zero => intro d i q u h; simp [ES.scan_loop] at h
  | succ k ih =>
    intro d i q u h
    by_cases hd : s ≤ d
    · simp only [ES.scan_loop, if_pos hd, List.mem_cons] at h
      rcases h with h | h
      · subst h; rfl
      · exact ih (d - s) (i+1) (ES.add_slice q i n) u h
    · simp only [ES.scan_loop, if_neg hd, List.mem_cons] at h
      rcases h with h | h
      · subst h; rfl
      · exact ih d (i+1) (ES.add_slice q i n) u h

/-- Every unit built by the coordinator `scan_index` carries the
caller's timeout value, in every response mode. -/
theorem es_scan_index_timeout (index client : String) (q : Query)
    (s : Nat) (timeout rt : String) (t : Nat) (qf : Query)
    (units : List WorkUnit) (u : WorkUnit)
    (h1 : ES.scan_index index client q s timeout rt t = some (qf, units))
    (h2 : u ∈ units) : u.timeout = timeout := by
  by_cases hh : rt = HITS
  · rw [ES.scan_index, if_pos hh] at h1
    by_cases hs0 : s = 0
    · rw [ES.get_npartitions, if_pos hs0] at h1
      simp at h1
    · rw [ES.get_npartitions, if_neg hs0] at h1
      simp only [Option.map_some'] at h1
      by_cases hn : 1 < t / s + 1
      · rw [if_pos hn] at h1
        have h1b : units = (ES.scan_loop index client timeout rt s
            (t / s + 1) (t / s + 1) t 0 q).2 := by
          have := congrArg (fun o => o.map Prod.snd) h1
          simp at this
          exact this.symm
        rw [h1b] at h2
        exact es_scan_loop_timeout index client timeout rt s (t / s + 1)
          (t / s + 1) t 0 q u h2
      · rw [if_neg hn] at h1
        have h1b : units = [⟨index, client, q, t, timeout, rt⟩] := by
          have := congrArg (fun o => o.map Prod.snd) h1
          simp at this
          exact this.symm
        rw [h1b] at h2
        simp at h2
        subst h2
        rfl
  · rw [ES.scan_index, if_neg hh] at h1
    by_cases ha : rt = AGGREGATION
    · rw [if_pos ha] at h1
      have h1b : units = [⟨index, client, q, s, timeout, rt⟩] := by
        have := congrArg (fun o => o.map Prod.snd) h1
        simp at this
        exact this.symm
      rw [h1b] at h2
      simp at h2
      subst h2
      rfl
    · rw [if_neg ha] at h1
      have h1b : units = [] := by
        have := congrArg (fun o => o.map Prod.snd) h1
        simp at this
        exact this
      rw [h1b] at h2
      simp at h2

/-! ### Claim theorems -/

/-- C1 (counterexample): the claim says the planner's partition count
equals max(1, ceil(totalDocs/pageSize)).  At totalDocs = pageSize =
10000 both planners compute 10000 div 10000 + 1 = 2, while the claimed
formula gives 1. -/
theorem C1_counterexample :
    ES.get_npartitions 10000 10000 = some 2 ∧
    Scanner.get_npartitions 10000 10000 = some 2 ∧
    specSliceMax 10000 10000 = 1 ∧ (2 : Nat) ≠ 1 := by
  refine ⟨rfl, rfl, rfl, by decide⟩

/-- C1 (amended): for every totalDocs and pageSize ≥ 1 both planners
compute sliceMax = totalDocs div pageSize + 1.  This equals
ceil(totalDocs/pageSize) exactly when pageSize does not divide
totalDocs; when pageSize divides totalDocs (including totalDocs = 0,
where the result is 1) it is one more than the ceiling. -/
theorem C1_sliceMax (t s : Nat) (hs : 1 ≤ s) :
    ES.get_npartitions t s = some (t / s + 1) ∧
    Scanner.get_npartitions t s = some (t / s + 1) ∧
    (¬ s ∣ t → t / s + 1 = ceilDiv t s) ∧
    (s ∣ t → t / s + 1 = ceilDiv t s + 1) ∧
    (t = 0 → t / s + 1 = 1) := by
  have hs0 : ¬ s = 0 := by omega
  refine ⟨?_, ?_, ?_, ?_, ?_⟩
  · rw [ES.get_npartitions, if_neg hs0]
  · rw [Scanner.get_npartitions, if_neg hs0]
  · exact fun hd => ceilDiv_of_not_dvd t s (by omega) hd
  · exact fun hd => ceilDiv_of_dvd t s (by omega) hd
  · intro ht; subst ht; simp

/-- Witness for C1_sliceMax at totalDocs = 25000, pageSize = 10000. -/
theorem C1_sliceMax_witness :
    1 ≤ 10000 ∧
    (ES.get_npartitions 25000 10000 = some (25000 / 10000 + 1) ∧
     Scanner.get_npartitions 25000 10000 = some (25000 / 10000 + 1) ∧
     (¬ (10000 : Nat) ∣ 25000 → 25000 / 10000 + 1 = ceilDiv 25000 10000) ∧
     ((10000 : Nat) ∣ 25000 → 25000 / 10000 + 1 = ceilDiv 25000 10000 + 1) ∧
     ((25000 : Nat) = 0 → 25000 / 10000 + 1 = 1)) :=
  ⟨by decide, C1_sliceMax 25000 10000 (by decide)⟩

/-- C2 (code bug witness): with totalDocs = 25000 and pageSize = 10000
the coordinator planner builds three delayed units, writing slice ids
0, 1, 2 into the one shared query dict (the per-step snapshots below),
but the shared dict the units will all read when executed ends the
planning loop holding the descriptor with id 2 and max 3 — the units
do not carry pairwise distinct slice ids at execution time. -/
theorem C2_shared_slice :
    ES.scan_index ("idx") ("c") ⟨"b", none⟩ 10000 ("1m") HITS 25000 =
      some (⟨"b", some ⟨2, 3⟩⟩,
        [⟨"idx", "c", ⟨"b", some ⟨0, 3⟩⟩, 10000, "1m", HITS⟩,
         ⟨"idx", "c", ⟨"b", some ⟨1, 3⟩⟩, 10000, "1m", HITS⟩,
         ⟨"idx", "c", ⟨"b", some ⟨2, 3⟩⟩, 5000, "1m", HITS⟩]) := by
  rfl

/-- C3 (code bug witness): planning is not read-only on the caller's
base query.  In the multi-slice hits path both planners write the
slice descriptor into the caller's dict in place: after planning the
caller-supplied query (slice-free on entry) holds the last slice
descriptor. -/
theorem C3_query_mutated :
    (ES.scan_index ("idx") ("c") ⟨"b", none⟩ 10000 ("1m") HITS
        25000).map Prod.fst = some ⟨"b", some ⟨2, 3⟩⟩ ∧
    (⟨"b", some ⟨2, 3⟩⟩ : Query) ≠ ⟨"b", none⟩ ∧
    (Scanner.scan_index ("c") ⟨"b", none⟩ 10000 ("1m") HITS
        [⟨1, 12000, "p", "10.0.0.1", "idx"⟩]).map Prod.fst =
      some ⟨"b", some ⟨1, 2⟩⟩ ∧
    (⟨"b", some ⟨1, 2⟩⟩ : Query) ≠ ⟨"b", none⟩ := by
  refine ⟨rfl, by decide, rfl, by decide⟩

/-- C4: with pageSize ≥ 1, the page sizes handed to the units of one
planning scope sum to that scope's document count: the whole-index
count for the coordinator planner, each shard's docCount for the
shard-local slice loop, and the sum of the discovered shards' counts
for the whole shard-local plan. -/
theorem C4_docs_sum (index client ca timeout : String) (q : Query)
    (s t : Nat) (hs : 1 ≤ s) (rows : List CatShardRow) (sh : ShardInfo) :
    (ES.scan_index index client q s timeout HITS t).map
        (fun r => (r.2.map (fun u => u.scrollSize)).sum) = some t ∧
    ((Scanner.shard_loop timeout HITS s (sh.docCount / s + 1) sh.index
        sh.endpoint (sh.docCount / s + 1) sh.docCount 0 q).2.map
        (fun u => u.scrollSize)).sum = sh.docCount ∧
    (Scanner.scan_index ca q s timeout HITS rows).map
        (fun r => (r.2.map (fun u => u.scrollSize)).sum) =
      some (((Scanner.get_shard_info rows).map
        (fun sh2 => sh2.docCount)).sum) := by
  have hs0 : ¬ s = 0 := by omega
  refine ⟨?_, ?_, ?_⟩
  · rw [ES.scan_index, if_pos rfl, ES.get_npartitions, if_neg hs0]
    simp only [Option.map_some']
    by_cases hn : 1 < t / s + 1
    · rw [if_pos hn]
      rw [es_scan_loop_sum index client timeout HITS s (t / s + 1)
        (by omega) (t / s + 1) t 0 q rfl]
    · rw [if_neg hn]
      simp
  · exact scanner_shard_loop_sum timeout HITS sh.index sh.endpoint s
      (sh.docCount / s + 1) (by omega) (sh.docCount / s + 1)
      sh.docCount 0 q rfl
  · rw [Scanner.scan_index]
    simp only [if_pos rfl]
    exact scanner_shards_loop_sum timeout HITS s (by omega)
      (Scanner.get_shard_info rows) q

/-- Witness for C4_docs_sum at pageSize 10000, totalDocs 25000, one
catalog row and one shard of 3000 docs. -/
theorem C4_docs_sum_witness :
    1 ≤ 10000 ∧
    ((ES.scan_index ("i") ("c") ⟨"b", none⟩ 10000 ("1m") HITS
        25000).map (fun r => (r.2.map (fun u => u.scrollSize)).sum) =
          some 25000 ∧
     ((Scanner.shard_loop ("1m") HITS 10000
        ((⟨2, 3000, "e2", "idx"⟩ : ShardInfo).docCount / 10000 + 1)
        (⟨2, 3000, "e2", "idx"⟩ : ShardInfo).index
        (⟨2, 3000, "e2", "idx"⟩ : ShardInfo).endpoint
        ((⟨2, 3000, "e2", "idx"⟩ : ShardInfo).docCount / 10000 + 1)
        (⟨2, 3000, "e2", "idx"⟩ : ShardInfo).docCount 0
        ⟨"b", none⟩).2.map (fun u => u.scrollSize)).sum =
          (⟨2, 3000, "e2", "idx"⟩ : ShardInfo).docCount ∧
     (Scanner.scan_index ("ca") ⟨"b", none⟩ 10000 ("1m") HITS
        [⟨1, 12000, "p", "e1", "idx"⟩]).map
        (fun r => (r.2.map (fun u => u.scrollSize)).sum) =
      some (((Scanner.get_shard_info [⟨1, 12000, "p", "e1", "idx"⟩]).map
        (fun sh2 => sh2.docCount)).sum)) :=
  ⟨by decide, C4_docs_sum ("i") ("c") ("ca") ("1m") ⟨"b", none⟩
    10000 25000 (by decide) [⟨1, 12000, "p", "e1", "idx"⟩]
    ⟨2, 3000, "e2", "idx"⟩⟩

/-- C5 (counterexample): the claim says totalDocs = pageSize yields
exactly one slice.  At totalDocs = pageSize = 10000 the coordinator
planner computes sliceMax = 2 and builds two units. -/
theorem C5_counterexample :
    (ES.scan_index ("idx") ("c") ⟨"b", none⟩ 10000 ("1m") HITS
        10000).map (fun r => r.2.length) = some 2 ∧ (2 : Nat) ≠ 1 :=
  ⟨rfl, by decide⟩

/-- C5 (amended): for pageSize ≥ 1, totalDocs = 0 yields exactly one
unit owning 0 docs with no slice metadata injected anywhere; but
totalDocs = pageSize yields two units owning pageSize and 0 docs, each
step injecting slice metadata with max = 2 into the shared query. -/
theorem C5_boundaries (index client timeout b : String) (s : Nat)
    (hs : 1 ≤ s) :
    ES.scan_index index client ⟨b, none⟩ s timeout HITS 0 =
      some (⟨b, none⟩, [⟨index, client, ⟨b, none⟩, 0, timeout, HITS⟩]) ∧
    ES.scan_index index client ⟨b, none⟩ s timeout HITS s =
      some (⟨b, some ⟨1, 2⟩⟩,
        [⟨index, client, ⟨b, some ⟨0, 2⟩⟩, s, timeout, HITS⟩,
         ⟨index, client, ⟨b, some ⟨1, 2⟩⟩, 0, timeout, HITS⟩]) := by
  have hs0 : ¬ s = 0 := by omega
  constructor
  · rw [ES.scan_index, if_pos rfl, ES.get_npartitions, if_neg hs0]
    simp
  · have hss : s / s = 1 := Nat.div_self (by omega)
    rw [ES.scan_index, if_pos rfl, ES.get_npartitions, if_neg hs0, hss]
    simp only [Option.map_some', if_pos (by omega : 1 < 1 + 1)]
    rw [ES.scan_loop]
    simp only [if_pos (le_refl s), Nat.sub_self]
    rw [ES.scan_loop]
    simp only [if_neg (by omega : ¬ s ≤ 0)]
    rw [ES.scan_loop]
    rfl

/-- Witness for C5_boundaries at pageSize 10000. -/
theorem C5_boundaries_witness :
    1 ≤ 10000 ∧
    (ES.scan_index ("i") ("c") ⟨"b", none⟩ 10000 ("1m") HITS 0 =
      some (⟨"b", none⟩, [⟨"i", "c", ⟨"b", none⟩, 0, "1m", HITS⟩]) ∧
     ES.scan_index ("i") ("c") ⟨"b", none⟩ 10000 ("1m") HITS 10000 =
      some (⟨"b", some ⟨1, 2⟩⟩,
        [⟨"i", "c", ⟨"b", some ⟨0, 2⟩⟩, 10000, "1m", HITS⟩,
         ⟨"i", "c", ⟨"b", some ⟨1, 2⟩⟩, 0, "1m", HITS⟩])) :=
  ⟨by decide, C5_boundaries ("i") ("c") ("1m") ("b") 10000 (by decide)⟩

/-- C6 (counterexample): the claim says a supplied pageSize of 0 makes
the planner substitute the default 10000 and proceed.  In the code
page size 0 reaches the floor division in the partition count and
raises ZeroDivisionError: planning produces no result, while the same
call with page size 10000 does. -/
theorem C6_counterexample :
    ES.scan_index ("idx") ("c") ⟨"b", none⟩ 0 ("1m") HITS 25000 =
      none ∧
    ES.scan_index ("idx") ("c") ⟨"b", none⟩ 10000 ("1m") HITS 25000 ≠
      none ∧
    Scanner.scan_index ("c") ⟨"b", none⟩ 0 ("1m") HITS
      [⟨1, 12000, "p", "10.0.0.1", "idx"⟩] = none :=
  ⟨rfl, by decide, rfl⟩

/-- C6 (amended): in hits mode a page size of 0 makes the planner fail
with a division-by-zero error before any unit is produced — no default
page size is substituted.  For the shard-local planner this happens as
soon as at least one primary shard with documents was discovered. -/
theorem C6_zero_pagesize (index client ca : String) (q : Query)
    (timeout : String) (t : Nat) (rest : List CatShardRow) :
    ES.scan_index index client q 0 timeout HITS t = none ∧
    Scanner.scan_index ca q 0 timeout HITS
      (⟨1, 5, "p", "e", "i"⟩ :: rest) = none := by
  constructor
  · rw [ES.scan_index, if_pos rfl, ES.get_npartitions, if_pos rfl]
    rfl
  · rw [Scanner.scan_index]
    simp [Scanner.get_shard_info, Scanner.shards_loop,
      Scanner.get_npartitions]

/-- C7: in aggregation mode neither planner injects slice metadata —
the caller's query is passed through untouched to every unit and the
shared dict is never written — the coordinator produces exactly one
unit for the index, and the shard-local planner produces exactly one
unit per distinct index discovered in the shard catalog (its unit
index list is duplicate-free). -/
theorem C7_aggregation (index client ca : String) (q : Query)
    (s t : Nat) (timeout : String) (rows : List CatShardRow) :
    ES.scan_index index client q s timeout AGGREGATION t =
      some (q, [⟨index, client, q, s, timeout, AGGREGATION⟩]) ∧
    Scanner.scan_index ca q s timeout AGGREGATION rows =
      some (q, (((Scanner.get_shard_info rows).map
          (fun sh => sh.index)).dedup).map
        (fun idx => ⟨idx, ca, q, s, timeout, AGGREGATION⟩)) ∧
    (((((Scanner.get_shard_info rows).map
          (fun sh => sh.index)).dedup).map
        (fun idx => (⟨idx, ca, q, s, timeout, AGGREGATION⟩ :
          WorkUnit))).map (fun u => u.index)).Nodup := by
  have hne : ¬ AGGREGATION = HITS := by decide
  refine ⟨?_, ?_, ?_⟩
  · rw [ES.scan_index, if_neg hne, if_pos rfl]
  · rw [Scanner.scan_index]
    simp [if_neg hne]
  · rw [List.map_map]
    have hcomp : ((fun u : WorkUnit => u.index) ∘
        (fun idx => (⟨idx, ca, q, s, timeout, AGGREGATION⟩ :
          WorkUnit))) = id := rfl
    rw [hcomp, List.map_id]
    exact List.nodup_dedup _

/-- C8: shard-local scenario with two primary shards of 12000 and 3000
docs and page size 10000.  Shard 1 yields two slices owning 10000 and
2000 docs, shard 2 yields one slice owning 3000 docs, and every unit
targets its own shard's endpoint, not the coordinator address. -/
theorem C8_shard_scenario :
    Scanner.scan_index ("http://coord:9200") ⟨"b", none⟩ 10000 ("1m")
      HITS
      [⟨1, 12000, "p", "10.0.0.1", "idx"⟩,
       ⟨2, 3000, "p", "10.0.0.2", "idx"⟩] =
    some (⟨"b", some ⟨0, 1⟩⟩,
      [⟨"idx", "http://10.0.0.1:9200", ⟨"b", some ⟨0, 2⟩⟩, 10000,
        "1m", HITS⟩,
       ⟨"idx", "http://10.0.0.1:9200", ⟨"b", some ⟨1, 2⟩⟩, 2000,
        "1m", HITS⟩,
       ⟨"idx", "http://10.0.0.2:9200", ⟨"b", some ⟨0, 1⟩⟩, 3000,
        "1m", HITS⟩]) := by
  rfl

/-- C9: the shard inspector returns exactly one entry per catalog row
that is a primary shard with strictly positive document count — every
replica row and every zero-doc row is excluded — and both source
files' versions agree. -/
theorem C9_shard_info (rows : List CatShardRow) (si : ShardInfo) :
    (si ∈ Scanner.get_shard_info rows ↔
      ∃ r, r ∈ rows ∧ r.prirep = "p" ∧ 0 < r.docs ∧
        si = ⟨r.shard, r.docs, r.ip, r.index⟩) ∧
    (Scanner.get_shard_info rows).length =
      (rows.filter (fun r => r.prirep == "p" &&
        decide (0 < r.docs))).length ∧
    ES.get_shard_info rows = Scanner.get_shard_info rows := by
  refine ⟨?_, ?_, rfl⟩
  · rw [Scanner.get_shard_info]
    simp only [List.mem_map, List.mem_filter, Bool.and_eq_true,
      beq_iff_eq, decide_eq_true_eq]
    constructor
    · rintro ⟨r, ⟨hr, hp, hd⟩, heq⟩
      exact ⟨r, hr, hp, hd, heq.symm⟩
    · rintro ⟨r, hr, hp, hd, heq⟩
      exact ⟨r, ⟨hr, hp, hd⟩, heq.symm⟩
  · rw [Scanner.get_shard_info, List.length_map]

/-- C10: every unit produced by the coordinator planner stores the
caller's timeout value, but when the unit executes its scan the
timeout forwarded to the search call is always the one-minute literal,
whatever timeout the unit carries; the shard-local scan behaves the
same way. -/
theorem C10_session_timeout (index client : String) (q : Query)
    (s : Nat) (timeout rt : String) (t : Nat) (qf : Query)
    (units : List WorkUnit) (u : WorkUnit)
    (i2 : String) (q2 : Query) (s2 : Nat) (t2 : String)
    (h1 : ES.scan_index index client q s timeout rt t = some (qf, units))
    (h2 : u ∈ units) :
    u.timeout = timeout ∧
    ES.scan_call u.index u.querySnapshot u.scrollSize u.timeout =
      ES.elastic_scanner_call u.index u.querySnapshot u.scrollSize
        ("1m") ∧
    (ES.scan_call u.index u.querySnapshot u.scrollSize
      u.timeout).scroll = "1m" ∧
    (Scanner.scan_call i2 q2 s2 t2).scroll = "1m" :=
  ⟨es_scan_index_timeout index client q s timeout rt t qf units u h1 h2,
    rfl, rfl, rfl⟩

/-- Witness for C10_session_timeout: a single-partition plan built with
caller timeout of five minutes; the unit stores that value while its
search call still uses the one-minute literal. -/
theorem C10_session_timeout_witness :
    ES.scan_index ("i") ("c") ⟨"b", none⟩ 10000 ("5m") HITS 0 =
      some (⟨"b", none⟩, [⟨"i", "c", ⟨"b", none⟩, 0, "5m", HITS⟩]) ∧
    (⟨"i", "c", ⟨"b", none⟩, 0, "5m", HITS⟩ : WorkUnit) ∈
      [(⟨"i", "c", ⟨"b", none⟩, 0, "5m", HITS⟩ : WorkUnit)] ∧
    ((⟨"i", "c", ⟨"b", none⟩, 0, "5m", HITS⟩ : WorkUnit).timeout =
       "5m" ∧
     ES.scan_call (⟨"i", "c", ⟨"b", none⟩, 0, "5m", HITS⟩ :
         WorkUnit).index
       (⟨"i", "c", ⟨"b", none⟩, 0, "5m", HITS⟩ : WorkUnit).querySnapshot
       (⟨"i", "c", ⟨"b", none⟩, 0, "5m", HITS⟩ : WorkUnit).scrollSize
       (⟨"i", "c", ⟨"b", none⟩, 0, "5m", HITS⟩ : WorkUnit).timeout =
      ES.elastic_scanner_call
        (⟨"i", "c", ⟨"b", none⟩, 0, "5m", HITS⟩ : WorkUnit).index
        (⟨"i", "c", ⟨"b", none⟩, 0, "5m", HITS⟩ :
          WorkUnit).querySnapshot
        (⟨"i", "c", ⟨"b", none⟩, 0, "5m", HITS⟩ : WorkUnit).scrollSize
        ("1m") ∧
     (ES.scan_call (⟨"i", "c", ⟨"b", none⟩, 0, "5m", HITS⟩ :
         WorkUnit).index
       (⟨"i", "c", ⟨"b", none⟩, 0, "5m", HITS⟩ : WorkUnit).querySnapshot
       (⟨"i", "c", ⟨"b", none⟩, 0, "5m", HITS⟩ : WorkUnit).scrollSize
       (⟨"i", "c", ⟨"b", none⟩, 0, "5m", HITS⟩ :
         WorkUnit).timeout).scroll = "1m" ∧
     (Scanner.scan_call ("x") ⟨"b", none⟩ 1 ("7m")).scroll = "1m") :=
  ⟨rfl, by decide,
    C10_session_timeout ("i") ("c") ⟨"b", none⟩ 10000 ("5m") HITS 0
      ⟨"b", none⟩ [⟨"i", "c", ⟨"b", none⟩, 0, "5m", HITS⟩]
      ⟨"i", "c", ⟨"b", none⟩, 0, "5m", HITS⟩ ("x") ⟨"b", none⟩ 1
      ("7m") rfl (by decide)⟩
